import Mathlib

/-!
Verification of the MyTaskly MCP intermediary server.

The development embeds, in Lean, the token codec, the formatting rules, the
backend client and the tool façade of the repository, and proves the spec
claims about them.  The modules `src/auth.py`, `src/formatters.py` and
`src/config.py` are absent from the sources (only their tests and callers
are present); the definitions for them below are modelled from the spec, as
their doc comments state.  The rest is translated from `src/client.py`,
`src/server.py` and `src/http_server.py`.
-/

/- ===== Token codec (src/auth.py is missing; modelled from the spec) ===== -/

/-- Payload of a signed credential: subject identifier, fixed type tag,
expiry instant (seconds). -/
structure Payload where
  sub : Int
  typ : String
  exp : Int
deriving DecidableEq

/-- Pure string hash used to model the HMAC-SHA256 signature primitive:
any pure keyed function of the payload works for the properties proved here. -/
def strHash (s : String) : Nat :=
  s.data.foldl (fun a c => (a * 31 + c.toNat) % 1000000007) 7

/-- Encoding of an integer into a natural, for hashing payload fields. -/
def intCode (i : Int) : Nat :=
  2 * i.natAbs + (if i < 0 then 1 else 0)

/-- Keyed MAC over a payload, modelling `jwt.encode`'s signature: a pure
function of the shared secret and the payload fields. -/
def macSign (secret : String) (p : Payload) : Nat :=
  ((strHash secret * 131 + intCode p.sub) * 131 + strHash p.typ) * 131 + intCode p.exp

/-- A signed token: payload plus signature. -/
structure Token where
  payload : Payload
  sig : Nat
deriving DecidableEq

/-- A present Authorization header value: either a well-formed bearer
credential or a value lacking the bearer scheme. -/
inductive HeaderVal
  | bearerTok (t : Token)
  | raw (s : String)
deriving DecidableEq

/-- The error raised on authentication failure, mirroring
`fastapi.HTTPException(status_code, detail)`. -/
structure AuthError where
  status_code : Nat
  detail : String
deriving DecidableEq

/-- The shared signing secret (value from `check_config.py`). -/
def secret_key : String := "349878uoti34h80943iotrhf-83490ewofridsh3t4iner"

/-- Modelled from the spec: `create_test_token` of the missing `src/auth.py`.
`issue(subject, ttl)` produces a signed credential whose payload carries the
subject, a fixed type tag and expiry instant `now + ttl` (ttl in minutes). -/
def create_test_token (user_id : Int) (now : Int) (expires_minutes : Int := 30) : Token :=
  let p : Payload := { sub := user_id, typ := "access", exp := now + expires_minutes * 60 }
  { payload := p, sig := macSign secret_key p }

/-- Modelled from the spec: `verify_jwt_token` of the missing `src/auth.py`.
Accepts `"Bearer <token>"`; fails with a 401 `Unauthenticated` error when the
header is absent, lacks the bearer scheme, the signature does not validate,
or the expiry instant has passed; on success returns the integer subject. -/
def verify_jwt_token (authorization : Option HeaderVal) (now : Int) : Except AuthError Int :=
  match authorization with
  | none => .error ⟨401, "Missing Authorization header"⟩
  | some (.raw _) => .error ⟨401, "Invalid Authorization header format"⟩
  | some (.bearerTok t) =>
    if t.sig ≠ macSign secret_key t.payload then .error ⟨401, "Invalid token signature"⟩
    else if t.payload.exp ≤ now then .error ⟨401, "Token expired"⟩
    else .ok t.payload.sub

/-- Whether a verification result is an `Unauthenticated` (HTTP 401) failure. -/
def isUnauthenticated : Except AuthError Int → Bool
  | .error e => e.status_code == 401
  | .ok _ => false

/- ===== Formatting rules (src/formatters.py is missing; modelled from the spec) ===== -/

/-- Italian month names, index 0 = gennaio. -/
def italianMonths : List String :=
  ["gennaio", "febbraio", "marzo", "aprile", "maggio", "giugno",
   "luglio", "agosto", "settembre", "ottobre", "novembre", "dicembre"]

/-- Italian weekday names, index 0 = Lunedì. -/
def italianWeekdays : List String :=
  ["Lunedì", "Martedì", "Mercoledì", "Giovedì", "Venerdì", "Sabato", "Domenica"]

/-- Two-digit zero padding of a number. -/
def pad2 (n : Nat) : String :=
  if n < 10 then "0" ++ toString n else toString n

/-- Parse a nonempty all-digit character list as a natural number. -/
def parseNatDigits (cs : List Char) : Option Nat :=
  if cs.isEmpty then none
  else cs.foldl (fun acc c =>
    match acc with
    | some a => if c.isDigit then some (a * 10 + (c.toNat - 48)) else none
    | none => none) (some 0)

/-- Day-of-week by Zeller's congruence; result indexes `italianWeekdays`
(0 = Lunedì). -/
def weekdayIndex (year month day : Nat) : Nat :=
  let y := if month ≤ 2 then year - 1 else year
  let m := if month ≤ 2 then month + 12 else month
  let k := y % 100
  let j := y / 100
  let h := (day + (13 * (m + 1)) / 5 + k + k / 4 + j / 4 + 5 * j) % 7
  (h + 5) % 7

/-- Modelled from the spec: `format_date_for_mobile` of the missing
`src/formatters.py`.  An ISO-8601 timestamp maps to a localized
"Weekday D Month, HH:MM" string; empty input maps to the empty string;
malformed input falls back to the raw string and never crashes. -/
def format_date_for_mobile (date_str : String) : String :=
  if date_str = "" then ""
  else
    let cs := date_str.data
    let sepOk := cs.get? 4 == some '-' && cs.get? 7 == some '-' &&
                 cs.get? 10 == some 'T' && cs.get? 13 == some ':'
    match parseNatDigits (cs.take 4), parseNatDigits ((cs.drop 5).take 2),
          parseNatDigits ((cs.drop 8).take 2), parseNatDigits ((cs.drop 11).take 2),
          parseNatDigits ((cs.drop 14).take 2) with
    | some y, some mo, some d, some h, some mi =>
      if sepOk = true ∧ 1 ≤ mo ∧ mo ≤ 12 then
        let wd := (italianWeekdays.get? (weekdayIndex y mo d)).getD ""
        let mn := (italianMonths.get? (mo - 1)).getD ""
        wd ++ " " ++ toString d ++ " " ++ mn ++ ", " ++ pad2 h ++ ":" ++ pad2 mi
      else date_str
    | _, _, _, _, _ => date_str

/-- Modelled from the spec: `get_priority_emoji` of the missing
`src/formatters.py`.  "Alta" maps to the lightning emoji; every other level
maps to the empty emoji (values fixed by `tests/test_formatters.py`). -/
def get_priority_emoji (priority : String) : String :=
  if priority = "Alta" then "⚡" else ""

/-- Modelled from the spec: `get_priority_color` of the missing
`src/formatters.py`.  Closed lookup table with a defined default color
(known values fixed by `tests/test_formatters.py`). -/
def get_priority_color (priority : String) : String :=
  if priority = "Alta" then "#EF4444"
  else if priority = "Media" then "#F59E0B"
  else if priority = "Bassa" then "#10B981"
  else "#6B7280"

/-- Fixed fallback palette for unknown category names. -/
def category_palette : List String :=
  ["#EF4444", "#F59E0B", "#10B981", "#3B82F6", "#8B5CF6", "#EC4899", "#14B8A6", "#F97316"]

/-- Modelled from the spec: `get_category_color` of the missing
`src/formatters.py`.  Fixed lookup table for known categories ("Lavoro" and
"Personale" fixed by `tests/test_formatters.py`); unknown names hash
deterministically into the fixed palette — a pure function, no randomness. -/
def get_category_color (category : String) : String :=
  if category = "Lavoro" then "#3B82F6"
  else if category = "Personale" then "#8B5CF6"
  else if category = "Studio" then "#10B981"
  else if category = "Sport" then "#F59E0B"
  else if category = "Famiglia" then "#EC4899"
  else (category_palette.get? (strHash category % category_palette.length)).getD "#6B7280"

/-- Raw task record as returned by the backend. -/
structure TaskRec where
  task_id : Int
  title : String
  description : Option String := none
  start_time : Option String := none
  end_time : Option String := none
  priority : String := ""
  status : String := ""
  category : String := ""
deriving DecidableEq

/-- One action descriptor: label text plus enabled flag. -/
structure ActionDescriptor where
  label : String
  enabled : Bool
deriving DecidableEq

/-- The fixed-shape complete/edit/delete action block of a formatted task. -/
structure TaskActions where
  complete : ActionDescriptor
  edit : ActionDescriptor
  delete : ActionDescriptor
deriving DecidableEq

/-- UI task view: the formatted, display-ready projection of a raw task. -/
structure FormattedTask where
  id : Int
  title : String
  description : String
  endTime : String
  endTimeFormatted : String
  category : String
  categoryColor : String
  priority : String
  priorityEmoji : String
  priorityColor : String
  status : String
  actions : TaskActions
deriving DecidableEq

/-- Summary aggregate: derived counts over the current task list. -/
structure Summary where
  total : Nat
  pending : Nat
  completed : Nat
  high_priority : Nat
deriving DecidableEq

/-- One column descriptor (field name, display label, render kind; the render
kind is the "type" field of the JSON). -/
structure Column where
  name : String
  label : String
  ctype : String
deriving DecidableEq

/-- The full response of `format_tasks_for_ui`. -/
structure FormattedResponse where
  rtype : String
  version : String
  columns : List Column
  tasks : List FormattedTask
  summary : Summary
  voice_summary : String
deriving DecidableEq

/-- Modelled from the spec: the per-task formatting step of the missing
`src/formatters.py` — localized date, priority emoji/color, category color
and the fixed action block (a completed task disables "complete"). -/
def format_task (t : TaskRec) : FormattedTask :=
  { id := t.task_id
    title := t.title
    description := t.description.getD ""
    endTime := t.end_time.getD ""
    endTimeFormatted := format_date_for_mobile (t.end_time.getD "")
    category := t.category
    categoryColor := get_category_color t.category
    priority := t.priority
    priorityEmoji := get_priority_emoji t.priority
    priorityColor := get_priority_color t.priority
    status := t.status
    actions :=
      { complete := { label := "[OK] Completa", enabled := t.status != "Completata" }
        edit := { label := "✏️ Modifica", enabled := true }
        delete := { label := "🗑️ Elimina", enabled := true } } }

/-- Modelled from the spec: the summary-statistics pass of the missing
`src/formatters.py` — total, pending, completed and high-priority counts in
a single pass over the input list. -/
def compute_summary (tasks : List TaskRec) : Summary :=
  { total := tasks.length
    pending := tasks.countP (fun t => t.status == "In sospeso")
    completed := tasks.countP (fun t => t.status == "Completata")
    high_priority := tasks.countP (fun t => t.priority == "Alta") }

/-- Modelled from the spec: the voice-summary template of the missing
`src/formatters.py`, degrading to a no-tasks sentence when total is 0. -/
def voice_summary_of (s : Summary) : String :=
  if s.total = 0 then "Non hai task al momento."
  else "Hai " ++ toString s.total ++ " task, di cui " ++ toString s.high_priority ++
       " ad alta priorità. " ++ toString s.pending ++ " sono in sospeso e " ++
       toString s.completed ++ " completati."

/-- Modelled from the spec: the fixed, static column descriptors of the
missing `src/formatters.py`, independent of input data. -/
def task_columns : List Column :=
  [ { name := "title", label := "Titolo", ctype := "text" },
    { name := "endTimeFormatted", label := "Scadenza", ctype := "text" },
    { name := "category", label := "Categoria", ctype := "badge" },
    { name := "priority", label := "Priorità", ctype := "badge" },
    { name := "status", label := "Stato", ctype := "badge" } ]

/-- Modelled from the spec: `format_tasks_for_ui` of the missing
`src/formatters.py`, assembling columns, formatted tasks, summary and
voice summary (shape fixed by `src/server.py` and the tests). -/
def format_tasks_for_ui (tasks : List TaskRec) : FormattedResponse :=
  let s := compute_summary tasks
  { rtype := "task_list"
    version := "1.0"
    columns := task_columns
    tasks := tasks.map format_task
    summary := s
    voice_summary := voice_summary_of s }

/- ===== Backend client (from src/client.py) ===== -/

/-- Category record as returned by the backend (`get_categories` docstring). -/
structure Category where
  category_id : Int
  name : String
  description : String
  user_id : Int
deriving DecidableEq

/-- Note object returned by `FastAPIClient.create_note` (src/client.py,
lines 145-152): backend-assigned id plus an echo of the inputs. -/
structure Note where
  note_id : Int
  title : String
  color : String
  position_x : String
  position_y : String
  message : String
deriving DecidableEq

/-- Outcome of the HTTP probe in `FastAPIClient.health_check`: either a
response with some status code, or the request itself raising. -/
inductive ProbeOutcome
  | response (status_code : Nat)
  | failure (error_message : String)
deriving DecidableEq

/-- The structured dictionary returned by `FastAPIClient.health_check`. -/
structure HealthResult where
  status : String
  code : Option Nat
  error : Option String
deriving DecidableEq

/-- `FastAPIClient.health_check` (src/client.py, lines 154-166): a response
of any status code yields "healthy" with the code recorded; an exception is
caught and yields "unhealthy" with the error message.  Totality of this
function is the never-raises property. -/
def client_health_check : ProbeOutcome → HealthResult
  | .response c => { status := "healthy", code := some c, error := none }
  | .failure m => { status := "unhealthy", code := none, error := some m }

/-- The aggregate health report of the `health_check` tool (src/server.py,
lines 224-231). -/
structure ServerHealth where
  mcp_server : String
  fastapi_server : String
deriving DecidableEq

/-- `health_check` tool (src/server.py): wraps the client probe, reporting
the probe status as the backend status. -/
def server_health_check (probe : ProbeOutcome) : ServerHealth :=
  { mcp_server := "healthy", fastapi_server := (client_health_check probe).status }

/-- `FastAPIClient.create_note`'s response transform (src/client.py,
lines 143-152): the backend returns the note id; the client echoes title,
color and positions and adds the fixed success message. -/
def client_create_note_result (backend_note_id : Int) (title : String)
    (position_x : String) (position_y : String) (color : String) : Note :=
  { note_id := backend_note_id
    title := title
    color := color
    position_x := position_x
    position_y := position_y
    message := "[OK] Nota creata con successo" }

/- ===== Tool façade (from src/server.py) ===== -/

/-- One outbound call to the backend client, recorded for the
short-circuit property. -/
inductive BackendCall
  | getTasksCall (user_id : Int)
  | getCategoriesCall (user_id : Int)
  | createNoteCall (user_id : Int) (title position_x position_y color : String)
deriving DecidableEq

/-- The backend environment: what the FastAPI server would answer.  The
façade is deterministic given this environment. -/
structure BackendEnv where
  tasksOf : Int → List TaskRec
  categoriesOf : Int → List Category
  nextNoteId : Int

/-- Response of the `get_categories` tool (src/server.py, lines 138-141). -/
structure CategoriesResponse where
  categories : List Category
  total : Nat
deriving DecidableEq

/-- `get_tasks` tool (src/server.py, lines 92-101): verify the credential,
fetch the tasks for the verified subject, format them.  The second component
records every outbound backend call that was attempted. -/
def facade_get_tasks (env : BackendEnv) (auth : Option HeaderVal) (now : Int) :
    Except AuthError FormattedResponse × List BackendCall :=
  match verify_jwt_token auth now with
  | .error e => (.error e, [])
  | .ok user_id =>
      (.ok (format_tasks_for_ui (env.tasksOf user_id)), [BackendCall.getTasksCall user_id])

/-- `get_categories` tool (src/server.py, lines 104-141): verify, fetch,
wrap with the total count. -/
def facade_get_categories (env : BackendEnv) (auth : Option HeaderVal) (now : Int) :
    Except AuthError CategoriesResponse × List BackendCall :=
  match verify_jwt_token auth now with
  | .error e => (.error e, [])
  | .ok user_id =>
      (.ok { categories := env.categoriesOf user_id,
             total := (env.categoriesOf user_id).length },
       [BackendCall.getCategoriesCall user_id])

/-- `create_note` tool (src/server.py, lines 144-205): verify, then create
the note via the client; defaults for position and color as declared. -/
def facade_create_note (env : BackendEnv) (auth : Option HeaderVal) (now : Int)
    (title : String) (position_x : String := "0") (position_y : String := "0")
    (color : String := "#FFEB3B") :
    Except AuthError Note × List BackendCall :=
  match verify_jwt_token auth now with
  | .error e => (.error e, [])
  | .ok user_id =>
      (.ok (client_create_note_result env.nextNoteId title position_x position_y color),
       [BackendCall.createNoteCall user_id title position_x position_y color])

/- ===== HTTP transport adapter (from src/http_server.py) ===== -/

/-- Request body of `POST /mcp/create_note` (src/http_server.py,
lines 64-69), with the declared defaults. -/
structure CreateNoteRequest where
  title : String
  position_x : String := "0"
  position_y : String := "0"
  color : String := "#FFEB3B"
deriving DecidableEq

/-- The `POST /mcp/create_note` route (src/http_server.py, lines 190-232):
forwards header and body fields to the façade. -/
def http_create_note (env : BackendEnv) (auth : Option HeaderVal) (now : Int)
    (req : CreateNoteRequest) : Except AuthError Note × List BackendCall :=
  facade_create_note env auth now req.title req.position_x req.position_y req.color

/-- An exception escaping a route handler: a `fastapi.HTTPException` (the
kind `verify_jwt_token` raises), an upstream backend failure raised by the
httpx layer in src/client.py (network failure or `raise_for_status` on a
non-2xx response, whose message carries the upstream status/description),
or any other unexpected exception. -/
inductive FacadeFailure
  | httpEx (status_code : Nat) (detail : String)
  | upstream (message : String)
  | unexpected (message : String)
deriving DecidableEq

/-- The uniform error envelope of the HTTP adapter. -/
structure ErrorEnvelope where
  detail : String
  error_code : String
deriving DecidableEq

/-- The exception handlers of src/http_server.py (lines 237-264):
`HTTPException` keeps its status code with a `HTTP_<code>` error code; any
other exception (upstream httpx errors included) maps to status 500 with the
`INTERNAL_ERROR` envelope carrying the exception message. -/
def handle_exception : FacadeFailure → Nat × ErrorEnvelope
  | .httpEx code detail => (code, { detail := detail, error_code := "HTTP_" ++ toString code })
  | .upstream msg =>
      (500, { detail := "Internal server error: " ++ msg, error_code := "INTERNAL_ERROR" })
  | .unexpected msg =>
      (500, { detail := "Internal server error: " ++ msg, error_code := "INTERNAL_ERROR" })

/- ===== Substring machinery (for containment statements) ===== -/

/-- Boolean test: the first list begins with the second. -/
def startsWithChars : List Char → List Char → Bool
  | _, [] => true
  | [], _ :: _ => false
  | a :: as, b :: bs => a == b && startsWithChars as bs

/-- Boolean test: the second list occurs contiguously inside the first. -/
def hasSubstringChars : List Char → List Char → Bool
  | [], needle => needle.isEmpty
  | a :: as, needle => startsWithChars (a :: as) needle || hasSubstringChars as needle

/-- Boolean substring test on strings. -/
def containsSub (s pat : String) : Bool :=
  hasSubstringChars s.data pat.data

/-- Boolean test: the string begins with the pattern. -/
def strStartsWith (s pat : String) : Bool :=
  startsWithChars s.data pat.data

/- ===== Helper lemmas ===== -/

/-- Every list begins with itself. -/
theorem startsWithChars_self (l : List Char) : startsWithChars l l = true := by
  induction l with
  | nil => rfl
  | cons a as ih => simp [startsWithChars, ih]

/-- A list occurs as a substring of anything it suffixes. -/
theorem hasSubstringChars_suffix (pre s : List Char) :
    hasSubstringChars (pre ++ s) s = true := by
  induction pre with
  | nil =>
    cases s with
    | nil => rfl
    | cons a as => simp [hasSubstringChars, startsWithChars_self]
  | cons p ps ih => simp [hasSubstringChars, ih]

/-- Appending a pattern after any string yields a string containing it. -/
theorem containsSub_append (pre s : String) : containsSub (pre ++ s) s = true := by
  show hasSubstringChars (pre ++ s).data s.data = true
  rw [String.data_append]
  exact hasSubstringChars_suffix pre.data s.data

/-- Counts of two mutually exclusive predicates never exceed the length. -/
theorem countP_disjoint_add_le (p q : TaskRec → Bool) (l : List TaskRec)
    (hpq : ∀ a, p a = true → q a = false) :
    l.countP p + l.countP q ≤ l.length := by
  induction l with
  | nil => simp
  | cons a l ih =>
    simp only [List.countP_cons, List.length_cons]
    by_cases hp : p a = true
    · have hq := hpq a hp
      simp only [hp, hq, if_true, if_false, Bool.false_eq_true]
      omega
    · rw [Bool.not_eq_true] at hp
      simp only [hp, Bool.false_eq_true, if_false]
      split <;> omega

/- ===== Claims ===== -/

/-- C1: for every valid user identifier and every positive TTL, verifying
"Bearer " + issue(subject, ttl) before the expiry instant succeeds and
returns exactly that subject as an integer. -/
theorem c1_verify_roundtrip (user_id t0 ttl t : Int) (httl : 0 < ttl)
    (ht : t < t0 + ttl * 60) :
    verify_jwt_token (some (HeaderVal.bearerTok (create_test_token user_id t0 ttl))) t
      = Except.ok user_id := by
  have h1 : ¬ (t0 + ttl * 60 ≤ t) := by omega
  simp [verify_jwt_token, create_test_token, h1]

set_option maxRecDepth 40000 in
/-- Witness for C1 at user 123, TTL 30 minutes, verified at issuance time. -/
theorem c1_verify_roundtrip_witness :
    verify_jwt_token (some (HeaderVal.bearerTok (create_test_token 123 0 30))) 0
      = Except.ok 123 :=
  c1_verify_roundtrip 123 0 30 0 (by decide) (by decide)

/-- C2: verify_jwt_token fails with an Unauthenticated (HTTP 401) error and
returns no subject when the header is absent, when it lacks the Bearer
scheme, when the signature does not validate, and when the token was issued
with TTL ≤ 0 (already expired). -/
theorem c2_verify_failures (s : String) (t : Token) (uid t0 ttl now : Int)
    (hsig : t.sig ≠ macSign secret_key t.payload) (httl : ttl ≤ 0) (hnow : t0 ≤ now) :
    isUnauthenticated (verify_jwt_token none now) = true ∧
    isUnauthenticated (verify_jwt_token (some (HeaderVal.raw s)) now) = true ∧
    isUnauthenticated (verify_jwt_token (some (HeaderVal.bearerTok t)) now) = true ∧
    isUnauthenticated
      (verify_jwt_token (some (HeaderVal.bearerTok (create_test_token uid t0 ttl))) now)
      = true := by
  refine ⟨rfl, rfl, ?_, ?_⟩
  · simp [verify_jwt_token, isUnauthenticated, hsig]
  · have hexp : t0 + ttl * 60 ≤ now := by omega
    simp [verify_jwt_token, create_test_token, isUnauthenticated, hexp]

set_option maxRecDepth 40000 in
/-- Witness for C2: absent header, a header lacking the scheme, a tampered
signature and a TTL of -1 minute, all at verification time 0. -/
theorem c2_verify_failures_witness :
    isUnauthenticated (verify_jwt_token none 0) = true ∧
    isUnauthenticated (verify_jwt_token (some (HeaderVal.raw "InvalidFormat")) 0) = true ∧
    isUnauthenticated
      (verify_jwt_token (some (HeaderVal.bearerTok ⟨⟨123, "access", 9999⟩, 0⟩)) 0) = true ∧
    isUnauthenticated
      (verify_jwt_token (some (HeaderVal.bearerTok (create_test_token 123 0 (-1)))) 0)
      = true :=
  c2_verify_failures "InvalidFormat" ⟨⟨123, "access", 9999⟩, 0⟩ 123 0 (-1) 0
    (by decide) (by decide) (by decide)

/-- C3: for every protected façade operation and every authorization value
whose verification fails, the operation returns the Unauthenticated error
and its recorded list of outbound backend calls is empty: authentication
failure short-circuits before any backend call. -/
theorem c3_short_circuit (env : BackendEnv) (auth : Option HeaderVal) (now : Int)
    (title px py color : String) (e : AuthError)
    (h : verify_jwt_token auth now = Except.error e) :
    facade_get_tasks env auth now = (Except.error e, []) ∧
    facade_get_categories env auth now = (Except.error e, []) ∧
    facade_create_note env auth now title px py color = (Except.error e, []) := by
  refine ⟨?_, ?_, ?_⟩ <;>
    simp [facade_get_tasks, facade_get_categories, facade_create_note, h]

/-- Witness for C3: an absent header against an empty backend environment. -/
theorem c3_short_circuit_witness :
    facade_get_tasks ⟨fun _ => [], fun _ => [], 0⟩ none 0
      = (Except.error ⟨401, "Missing Authorization header"⟩, []) ∧
    facade_get_categories ⟨fun _ => [], fun _ => [], 0⟩ none 0
      = (Except.error ⟨401, "Missing Authorization header"⟩, []) ∧
    facade_create_note ⟨fun _ => [], fun _ => [], 0⟩ none 0 "t" "0" "0" "#FFEB3B"
      = (Except.error ⟨401, "Missing Authorization header"⟩, []) :=
  c3_short_circuit ⟨fun _ => [], fun _ => [], 0⟩ none 0 "t" "0" "0" "#FFEB3B"
    ⟨401, "Missing Authorization header"⟩ rfl

/-- The concrete task of the end-to-end formatting scenario. -/
def c4_task : TaskRec :=
  { task_id := 1, title := "Test Task", description := some "Test description",
    end_time := some "2025-12-15T18:00:00+00:00", start_time := none,
    priority := "Alta", status := "In sospeso", category := "Lavoro" }

set_option maxRecDepth 40000 in
/-- C4: formatting the single task {task_id 1, "Test Task",
end_time "2025-12-15T18:00:00+00:00", priority "Alta", status "In sospeso",
category "Lavoro"} yields priorityEmoji "⚡", categoryColor "#3B82F6", an
endTimeFormatted containing "dicembre" and "18:00", and a summary with
total = 1 and high_priority = 1. -/
theorem c4_end_to_end :
    ((format_tasks_for_ui [c4_task]).tasks.map FormattedTask.priorityEmoji = ["⚡"]) ∧
    ((format_tasks_for_ui [c4_task]).tasks.map FormattedTask.categoryColor = ["#3B82F6"]) ∧
    ((format_tasks_for_ui [c4_task]).tasks.map
        (fun ft => containsSub ft.endTimeFormatted "dicembre") = [true]) ∧
    ((format_tasks_for_ui [c4_task]).tasks.map
        (fun ft => containsSub ft.endTimeFormatted "18:00") = [true]) ∧
    (format_tasks_for_ui [c4_task]).summary.total = 1 ∧
    (format_tasks_for_ui [c4_task]).summary.high_priority = 1 := by
  decide

/-- C5: for every input task list, summary.total equals the list length,
summary.high_priority equals the number of tasks with priority "Alta",
pending + completed ≤ total and high_priority ≤ total. -/
theorem c5_summary_invariants (tasks : List TaskRec) :
    (format_tasks_for_ui tasks).summary.total = tasks.length ∧
    (format_tasks_for_ui tasks).summary.high_priority
      = (tasks.filter (fun t => t.priority == "Alta")).length ∧
    (format_tasks_for_ui tasks).summary.pending
        + (format_tasks_for_ui tasks).summary.completed
      ≤ (format_tasks_for_ui tasks).summary.total ∧
    (format_tasks_for_ui tasks).summary.high_priority
      ≤ (format_tasks_for_ui tasks).summary.total := by
  refine ⟨rfl, ?_, ?_, ?_⟩
  · simp [format_tasks_for_ui, compute_summary, List.countP_eq_length_filter]
  · have hd : ∀ a : TaskRec, (a.status == "In sospeso") = true →
        (a.status == "Completata") = false := by
      intro a h
      rw [beq_iff_eq] at h
      simp [h]
    exact countP_disjoint_add_le _ _ tasks hd
  · exact List.countP_le_length _

/-- C6: get_category_color is deterministic for every category name,
including unknown names (a pure function of the name alone, so two calls
within or across runs agree), and always returns a "#"-prefixed color. -/
theorem c6_category_color_deterministic (name : String) :
    get_category_color name = get_category_color name ∧
    strStartsWith (get_category_color name) "#" = true := by
  refine ⟨rfl, ?_⟩
  unfold get_category_color
  split_ifs
  · decide
  · decide
  · decide
  · decide
  · decide
  · have h8 : strHash name % category_palette.length < 8 := Nat.mod_lt _ (by decide)
    revert h8
    generalize strHash name % category_palette.length = i
    intro h8
    interval_cases i <;> decide

/-- C7: FastAPIClient.health_check never raises (it is a total function of
the probe outcome), always returns a structured result, and on probe failure
returns status "unhealthy" carrying the underlying error message. -/
theorem c7_health_never_raises (o : ProbeOutcome) (c : Nat) (m : String) :
    client_health_check (ProbeOutcome.response c)
      = { status := "healthy", code := some c, error := none } ∧
    client_health_check (ProbeOutcome.failure m)
      = { status := "unhealthy", code := none, error := some m } ∧
    ((client_health_check o).status = "healthy" ∨
      (client_health_check o).status = "unhealthy") := by
  refine ⟨rfl, rfl, ?_⟩
  cases o
  · exact Or.inl rfl
  · exact Or.inr rfl

/-- C8: the HTTP adapter maps authentication failures (HTTPException 401) to
status 401, upstream backend failures to a 5xx status whose detail carries
the upstream message, and unexpected errors to status 500, always with the
uniform {detail, error_code} envelope. -/
theorem c8_http_error_mapping (d m um : String) :
    handle_exception (FacadeFailure.httpEx 401 d)
      = (401, { detail := d, error_code := "HTTP_401" }) ∧
    (500 ≤ (handle_exception (FacadeFailure.upstream um)).1 ∧
      (handle_exception (FacadeFailure.upstream um)).1 < 600) ∧
    containsSub (handle_exception (FacadeFailure.upstream um)).2.detail um = true ∧
    (handle_exception (FacadeFailure.upstream um)).2.error_code = "INTERNAL_ERROR" ∧
    handle_exception (FacadeFailure.unexpected m)
      = (500, { detail := "Internal server error: " ++ m,
                error_code := "INTERNAL_ERROR" }) := by
  refine ⟨rfl, ⟨by simp [handle_exception], by simp [handle_exception]⟩, ?_, rfl, rfl⟩
  exact containsSub_append "Internal server error: " um

/-- C9: for every authenticated note creation that supplies only a title,
the returned note has position_x "0", position_y "0" and color "#FFEB3B",
both for the create_note tool and for the POST /mcp/create_note route. -/
theorem c9_note_defaults (env : BackendEnv) (auth : Option HeaderVal) (now uid : Int)
    (title : String) (h : verify_jwt_token auth now = Except.ok uid) :
    (facade_create_note env auth now title).1
      = Except.ok { note_id := env.nextNoteId, title := title, color := "#FFEB3B",
                    position_x := "0", position_y := "0",
                    message := "[OK] Nota creata con successo" } ∧
    (http_create_note env auth now { title := title }).1
      = Except.ok { note_id := env.nextNoteId, title := title, color := "#FFEB3B",
                    position_x := "0", position_y := "0",
                    message := "[OK] Nota creata con successo" } := by
  constructor <;>
    simp [facade_create_note, http_create_note, client_create_note_result, h]

set_option maxRecDepth 40000 in
/-- Witness for C9: a valid token for user 123, note id 456 from the
backend, title only. -/
theorem c9_note_defaults_witness :
    (facade_create_note ⟨fun _ => [], fun _ => [], 456⟩
        (some (HeaderVal.bearerTok (create_test_token 123 0 30))) 0 "Comprare il latte").1
      = Except.ok { note_id := 456, title := "Comprare il latte", color := "#FFEB3B",
                    position_x := "0", position_y := "0",
                    message := "[OK] Nota creata con successo" } ∧
    (http_create_note ⟨fun _ => [], fun _ => [], 456⟩
        (some (HeaderVal.bearerTok (create_test_token 123 0 30))) 0
        { title := "Comprare il latte" }).1
      = Except.ok { note_id := 456, title := "Comprare il latte", color := "#FFEB3B",
                    position_x := "0", position_y := "0",
                    message := "[OK] Nota creata con successo" } :=
  c9_note_defaults ⟨fun _ => [], fun _ => [], 456⟩
    (some (HeaderVal.bearerTok (create_test_token 123 0 30))) 0 123 "Comprare il latte"
    rfl

/-- C10: the health check reports "healthy" whenever the probe returns any
response at all, regardless of its status code (the code is recorded but
never inspected — the status does not depend on it), and "unhealthy" only
when the probe itself raises. -/
theorem c10_health_ignores_status_code (c1 c2 : Nat) (m : String) :
    (client_health_check (ProbeOutcome.response c1)).status = "healthy" ∧
    (client_health_check (ProbeOutcome.response c1)).code = some c1 ∧
    (client_health_check (ProbeOutcome.response c1)).status
      = (client_health_check (ProbeOutcome.response c2)).status ∧
    (server_health_check (ProbeOutcome.response 500)).fastapi_server = "healthy" ∧
    (client_health_check (ProbeOutcome.failure m)).status = "unhealthy" :=
  ⟨rfl, rfl, rfl, rfl, rfl⟩
